import Mathlib

/-!
Shallow embedding of the numerology engine in `Arquetipo_2.py` (the
computational core of the Arketipo_Kabalistc repository), together with
proofs about it.  Python integers that the program feeds to the reduction
functions are nonnegative, so machine numbers are modelled as `Nat`;
fallible functions (the ones that `raise ValueError`) return `Except Err`.
-/

namespace Arquetipo

/-- Error kinds of the core, as classified in the specification: the three
`ValueError`s raised by `Arquetipo_2.py` (name without usable letters,
unparseable date, non-positive number given to a reducer). -/
inductive Err where
  | invalidInput
  | invalidDate
  | invalidNumber
deriving DecidableEq, Repr

/-- Sum of the decimal digits of a number.  Models the Python pattern
`for digito in str(numero): suma += int(digito)` used in
`reducir_numero`, `reducir_simple` and `analizar_fecha_numerologia`. -/
def digitSum (n : Nat) : Nat :=
  if h : n = 0 then 0 else digitSum (n / 10) + n % 10
termination_by n
decreasing_by exact Nat.div_lt_self (Nat.pos_of_ne_zero h) (by omega)

theorem digitSum_le (n : Nat) : digitSum n ≤ n := by
  induction n using Nat.strong_induction_on with
  | _ n ih =>
    rw [digitSum]
    split
    · omega
    · rename_i h
      have hlt : n / 10 < n := Nat.div_lt_self (Nat.pos_of_ne_zero h) (by omega)
      have hle := ih (n / 10) hlt
      omega

theorem digitSum_lt (n : Nat) (h : 10 ≤ n) : digitSum n < n := by
  rw [digitSum]
  split
  · omega
  · have hle := digitSum_le (n / 10)
    omega

theorem digitSum_pos (n : Nat) (h : 1 ≤ n) : 1 ≤ digitSum n := by
  induction n using Nat.strong_induction_on with
  | _ n ih =>
    rw [digitSum]
    split
    · omega
    · rename_i hne
      by_cases hm : n % 10 = 0
      · have hq : 1 ≤ n / 10 := by omega
        have hlt : n / 10 < n := Nat.div_lt_self (Nat.pos_of_ne_zero hne) (by omega)
        have := ih (n / 10) hlt hq
        omega
      · omega

/-- Loop body of `reducir_numero` in `Arquetipo_2.py`:
`while numero >= 10 and numero not in (11, 22, 33): numero = <digit sum>`. -/
def reducirNumeroLoop (n : Nat) : Nat :=
  if h : 10 ≤ n ∧ n ≠ 11 ∧ n ≠ 22 ∧ n ≠ 33 then reducirNumeroLoop (digitSum n) else n
termination_by n
decreasing_by exact digitSum_lt n h.1

/-- Loop body of `reducir_simple` in `Arquetipo_2.py`:
`while numero >= 10: numero = <digit sum>`. -/
def reducirSimpleLoop (n : Nat) : Nat :=
  if h : 10 ≤ n then reducirSimpleLoop (digitSum n) else n
termination_by n
decreasing_by exact digitSum_lt n h

/-- Embeds `reducir_numero` of `Arquetipo_2.py`: raises for a non-positive number,
otherwise runs the digit-sum loop halting at one digit or at 11, 22, 33. -/
def reducir_numero (numero : Nat) : Except Err Nat :=
  if numero = 0 then .error .invalidNumber else .ok (reducirNumeroLoop numero)

/-- Embeds `reducir_simple` of `Arquetipo_2.py`: raises for a non-positive number,
otherwise runs the digit-sum loop down to a single digit. -/
def reducir_simple (numero : Nat) : Except Err Nat :=
  if numero = 0 then .error .invalidNumber else .ok (reducirSimpleLoop numero)

theorem reducirNumeroLoop_step (n : Nat) (h : 10 ≤ n ∧ n ≠ 11 ∧ n ≠ 22 ∧ n ≠ 33) :
    reducirNumeroLoop n = reducirNumeroLoop (digitSum n) := by
  rw [reducirNumeroLoop]
  exact dif_pos h

theorem reducirNumeroLoop_halt (n : Nat) (h : ¬(10 ≤ n ∧ n ≠ 11 ∧ n ≠ 22 ∧ n ≠ 33)) :
    reducirNumeroLoop n = n := by
  rw [reducirNumeroLoop]
  exact dif_neg h

theorem reducirSimpleLoop_step (n : Nat) (h : 10 ≤ n) :
    reducirSimpleLoop n = reducirSimpleLoop (digitSum n) := by
  rw [reducirSimpleLoop]
  exact dif_pos h

theorem reducirSimpleLoop_halt (n : Nat) (h : n < 10) :
    reducirSimpleLoop n = n := by
  rw [reducirSimpleLoop]
  exact dif_neg (by omega)

theorem reducirNumeroLoop_range (n : Nat) (h : 1 ≤ n) :
    (1 ≤ reducirNumeroLoop n ∧ reducirNumeroLoop n ≤ 9) ∨
      reducirNumeroLoop n = 11 ∨ reducirNumeroLoop n = 22 ∨ reducirNumeroLoop n = 33 := by
  induction n using Nat.strong_induction_on with
  | _ n ih =>
    by_cases hc : 10 ≤ n ∧ n ≠ 11 ∧ n ≠ 22 ∧ n ≠ 33
    · rw [reducirNumeroLoop_step n hc]
      exact ih (digitSum n) (digitSum_lt n hc.1) (digitSum_pos n h)
    · rw [reducirNumeroLoop_halt n hc]
      omega

theorem reducirSimpleLoop_range (n : Nat) (h : 1 ≤ n) :
    1 ≤ reducirSimpleLoop n ∧ reducirSimpleLoop n ≤ 9 := by
  induction n using Nat.strong_induction_on with
  | _ n ih =>
    by_cases hc : 10 ≤ n
    · rw [reducirSimpleLoop_step n hc]
      exact ih (digitSum n) (digitSum_lt n hc) (digitSum_pos n h)
    · rw [reducirSimpleLoop_halt n (by omega)]
      omega

/-- Applying the master-aware loop first does not change the single-digit
collapse: the key step for the round-trip property. -/
theorem reducirSimpleLoop_reducirNumeroLoop (n : Nat) :
    reducirSimpleLoop (reducirNumeroLoop n) = reducirSimpleLoop n := by
  induction n using Nat.strong_induction_on with
  | _ n ih =>
    by_cases hc : 10 ≤ n ∧ n ≠ 11 ∧ n ≠ 22 ∧ n ≠ 33
    · rw [reducirNumeroLoop_step n hc, ih (digitSum n) (digitSum_lt n hc.1),
        reducirSimpleLoop_step n hc.1]
    · rw [reducirNumeroLoop_halt n hc]

/-- Models Python `str.strip()` as applied in `analizar_fecha_numerologia`:
drops leading and trailing whitespace characters. -/
def stripLista (l : List Char) : List Char :=
  ((l.dropWhile Char.isWhitespace).reverse.dropWhile Char.isWhitespace).reverse

/-- Models splitting on a literal separator, the effect the fixed separators
of the formats `%d/%m/%Y` and `%Y-%m-%d` have inside `datetime.strptime`. -/
def splitOnChar (sep : Char) : List Char → List (List Char)
  | [] => [[]]
  | c :: rest =>
    match splitOnChar sep rest with
    | [] => [[c]]
    | g :: gs => if c = sep then [] :: g :: gs else (c :: g) :: gs

/-- Numeric value of a list of decimal digit characters. -/
def valorDigitos (l : List Char) : Nat :=
  l.foldl (fun a c => 10 * a + (c.toNat - 48)) 0

/-- Models the `%d` directive of `datetime.strptime` (regular expression
`3[01]|[12]\x5cd|0[1-9]|[1-9]` matching the whole field): one or two digits
with value between 1 and 31. -/
def campoDia (l : List Char) : Option Nat :=
  if l.all Char.isDigit ∧ (l.length = 1 ∨ l.length = 2) ∧
      1 ≤ valorDigitos l ∧ valorDigitos l ≤ 31 then
    some (valorDigitos l)
  else none

/-- Models the `%m` directive of `datetime.strptime`: one or two digits with
value between 1 and 12. -/
def campoMes (l : List Char) : Option Nat :=
  if l.all Char.isDigit ∧ (l.length = 1 ∨ l.length = 2) ∧
      1 ≤ valorDigitos l ∧ valorDigitos l ≤ 12 then
    some (valorDigitos l)
  else none

/-- Models the `%Y` directive of `datetime.strptime`: exactly four digits. -/
def campoAno (l : List Char) : Option Nat :=
  if l.all Char.isDigit ∧ l.length = 4 then some (valorDigitos l) else none

/-- Leap-year rule of the proleptic Gregorian calendar used by
`datetime`. -/
def es_bisiesto (y : Nat) : Bool :=
  y % 4 = 0 ∧ (y % 100 ≠ 0 ∨ y % 400 = 0)

/-- Number of days of a month, as validated by the `datetime` constructor. -/
def dias_del_mes (y m : Nat) : Nat :=
  if m = 2 then (if es_bisiesto y then 29 else 28)
  else if m = 4 ∨ m = 6 ∨ m = 9 ∨ m = 11 then 30
  else 31

/-- Models the validation of the `datetime` constructor: year between
`MINYEAR = 1` and `MAXYEAR = 9999`, month 1-12, day within the month. -/
def fechaValida (d m y : Nat) : Bool :=
  1 ≤ y ∧ y ≤ 9999 ∧ 1 ≤ m ∧ m ≤ 12 ∧ 1 ≤ d ∧ d ≤ dias_del_mes y m

/-- Models `datetime.strptime(s, "%d/%m/%Y")` returning day, month, year. -/
def parseDDMMYYYY (l : List Char) : Option (Nat × Nat × Nat) :=
  match splitOnChar '/' l with
  | [cd, cm, cy] =>
    match campoDia cd, campoMes cm, campoAno cy with
    | some d, some m, some y => if fechaValida d m y then some (d, m, y) else none
    | _, _, _ => none
  | _ => none

/-- Models `datetime.strptime(s, "%Y-%m-%d")` returning day, month, year. -/
def parseYYYYMMDD (l : List Char) : Option (Nat × Nat × Nat) :=
  match splitOnChar '-' l with
  | [cy, cm, cd] =>
    match campoDia cd, campoMes cm, campoAno cy with
    | some d, some m, some y => if fechaValida d m y then some (d, m, y) else none
    | _, _, _ => none
  | _ => none

/-- The format loop of `analizar_fecha_numerologia`: `DD/MM/AAAA` is tried
first, `AAAA-MM-DD` second, the first successful parse wins. -/
def parseFecha (l : List Char) : Option (Nat × Nat × Nat) :=
  match parseDDMMYYYY l with
  | some r => some r
  | none => parseYYYYMMDD l

/-- Record returned by `analizar_fecha_numerologia` (the Python dict with
keys dia, mes, ano, suma_ano, base_total, numero_vida, base_simple,
representacion_camino). -/
structure InfoFecha where
  dia : Nat
  mes : Nat
  ano : Nat
  suma_ano : Nat
  base_total : Nat
  numero_vida : Nat
  base_simple : Nat
  representacion_camino : String
deriving DecidableEq, Repr

/-- Embeds `analizar_fecha_numerologia` of `Arquetipo_2.py`. -/
def analizar_fecha_numerologia (fecha_str : String) : Except Err InfoFecha :=
  match parseFecha (stripLista fecha_str.data) with
  | none => .error .invalidDate
  | some (dia, mes, ano) => do
    let suma_ano := digitSum ano
    let base_total := dia + mes + suma_ano
    let numero_vida ← reducir_numero base_total
    let base_simple ← reducir_simple numero_vida
    .ok { dia := dia, mes := mes, ano := ano, suma_ano := suma_ano,
          base_total := base_total, numero_vida := numero_vida,
          base_simple := base_simple,
          representacion_camino :=
            if numero_vida = 11 ∨ numero_vida = 22 ∨ numero_vida = 33 then
              toString numero_vida ++ "/" ++ toString base_simple
            else
              toString numero_vida }

/-- Models `unicodedata.normalize("NFKD", ...)` character by character for
the letters this program meets: precomposed Latin letters decompose into
their base letter followed by a combining mark; every other character is
its own decomposition (ASCII characters are NFKD-invariant). -/
def nfkdChar (c : Char) : List Char :=
  match c with
  | 'á' => ['a', '\u0301'] | 'é' => ['e', '\u0301'] | 'í' => ['i', '\u0301']
  | 'ó' => ['o', '\u0301'] | 'ú' => ['u', '\u0301'] | 'ý' => ['y', '\u0301']
  | 'Á' => ['A', '\u0301'] | 'É' => ['E', '\u0301'] | 'Í' => ['I', '\u0301']
  | 'Ó' => ['O', '\u0301'] | 'Ú' => ['U', '\u0301'] | 'Ý' => ['Y', '\u0301']
  | 'à' => ['a', '\u0300'] | 'è' => ['e', '\u0300'] | 'ì' => ['i', '\u0300']
  | 'ò' => ['o', '\u0300'] | 'ù' => ['u', '\u0300']
  | 'À' => ['A', '\u0300'] | 'È' => ['E', '\u0300'] | 'Ì' => ['I', '\u0300']
  | 'Ò' => ['O', '\u0300'] | 'Ù' => ['U', '\u0300']
  | 'â' => ['a', '\u0302'] | 'ê' => ['e', '\u0302'] | 'î' => ['i', '\u0302']
  | 'ô' => ['o', '\u0302'] | 'û' => ['u', '\u0302']
  | 'Â' => ['A', '\u0302'] | 'Ê' => ['E', '\u0302'] | 'Î' => ['I', '\u0302']
  | 'Ô' => ['O', '\u0302'] | 'Û' => ['U', '\u0302']
  | 'ã' => ['a', '\u0303'] | 'ñ' => ['n', '\u0303'] | 'õ' => ['o', '\u0303']
  | 'Ã' => ['A', '\u0303'] | 'Ñ' => ['N', '\u0303'] | 'Õ' => ['O', '\u0303']
  | 'ä' => ['a', '\u0308'] | 'ë' => ['e', '\u0308'] | 'ï' => ['i', '\u0308']
  | 'ö' => ['o', '\u0308'] | 'ü' => ['u', '\u0308'] | 'ÿ' => ['y', '\u0308']
  | 'Ä' => ['A', '\u0308'] | 'Ë' => ['E', '\u0308'] | 'Ï' => ['I', '\u0308']
  | 'Ö' => ['O', '\u0308'] | 'Ü' => ['U', '\u0308']
  | 'ç' => ['c', '\u0327'] | 'Ç' => ['C', '\u0327']
  | c => [c]

/-- Models `unicodedata.combining(c) != 0` for the characters reachable
here: the combining diacritical marks block U+0300 to U+036F (every mark
produced by `nfkdChar` lies in it, and no other reachable character is
combining). -/
def combining (c : Char) : Bool :=
  0x300 ≤ c.toNat ∧ c.toNat ≤ 0x36F

/-- Models the regular expression class `[A-Za-z]` used by
`re.sub(r"[^A-Za-z]", "", ...)`: an ASCII letter. -/
def esLetraAZ (c : Char) : Bool :=
  (65 ≤ c.toNat ∧ c.toNat ≤ 90) ∨ (97 ≤ c.toNat ∧ c.toNat ≤ 122)

/-- Body of `normalizar_nombre` on the character list of the input: NFKD
decomposition, removal of combining marks, removal of characters outside
`A-Za-z`, uppercase. -/
def normalizarLista (l : List Char) : List Char :=
  (((l.flatMap nfkdChar).filter (fun c => !combining c)).filter esLetraAZ).map Char.toUpper

/-- Embeds `normalizar_nombre` of `Arquetipo_2.py`.  Its `isinstance(nombre, str)`
guard cannot fail here because the input is a `String` by type; for every
string input the Python function returns normally. -/
def normalizar_nombre (nombre : String) : String :=
  ⟨normalizarLista nombre.data⟩

/-- The dictionary `mapa` inside `letra_a_numero`. -/
def mapaPitagorico (c : Char) : Option Nat :=
  match c with
  | 'A' => some 1 | 'J' => some 1 | 'S' => some 1
  | 'B' => some 2 | 'K' => some 2 | 'T' => some 2
  | 'C' => some 3 | 'L' => some 3 | 'U' => some 3
  | 'D' => some 4 | 'M' => some 4 | 'V' => some 4
  | 'E' => some 5 | 'N' => some 5 | 'W' => some 5
  | 'F' => some 6 | 'O' => some 6 | 'X' => some 6
  | 'G' => some 7 | 'P' => some 7 | 'Y' => some 7
  | 'H' => some 8 | 'Q' => some 8 | 'Z' => some 8
  | 'I' => some 9 | 'R' => some 9
  | _ => none

/-- Embeds `letra_a_numero` of `Arquetipo_2.py`: `mapa.get(letra.upper(), 0)`. -/
def letra_a_numero (letra : Char) : Nat :=
  (mapaPitagorico letra.toUpper).getD 0

/-- Embeds `numero_desde_nombre` of `Arquetipo_2.py`: normalize, require at least
one letter, sum the cipher values, reduce with masters. -/
def numero_desde_nombre (nombre : String) : Except Err Nat :=
  let nombre_normalizado := normalizar_nombre nombre
  if nombre_normalizado.data = [] then .error .invalidInput
  else reducir_numero ((nombre_normalizado.data.map letra_a_numero).sum)

/-- Structure of one entry of the dictionary `arquetipos` inside
`arquetipo_desde_numero` (keys nombre, descripcion, perfeccionar). -/
structure ArquetipoInfo where
  nombre : String
  descripcion : String
  perfeccionar : String
deriving DecidableEq, Repr

/-- The dictionary `arquetipos` inside `arquetipo_desde_numero` of
`Arquetipo_2.py`, transcribed verbatim. -/
def arquetipos (numero : Nat) : Option ArquetipoInfo :=
  match numero with
  | 1 => some
    { nombre := "Canal de Voluntad y Autoafirmación",
      descripcion := "Energía asociada a la chispa inicial del deseo. Representa la capacidad de iniciar, liderar y abrir camino. En términos kabalistas, es un canal fuerte de voluntad que puede conectarse con un propósito elevado cuando se alinea con la Luz.",
      perfeccionar := "Transformar el orgullo y la necesidad de tener siempre la razón en liderazgo al servicio de algo más grande que el ego." }
  | 2 => some
    { nombre := "Canal de Unión y Receptividad",
      descripcion := "Energía vinculada a la sensibilidad y al mundo de las relaciones. Refleja la conciencia de separación y la búsqueda de unidad. Se conecta con la idea de aprender a recibir de manera equilibrada, sin perder la propia esencia.",
      perfeccionar := "Aprender a poner límites sin culpa y a no perder tu voz interior por miedo a ser rechazado." }
  | 3 => some
    { nombre := "Canal de Expresión y Alegría Creativa",
      descripcion := "Energía que se vincula con la expresión del alma a través de la palabra, el arte y la comunicación. En la Kábala se asocia con la capacidad de revelar Luz a través de la belleza y la vibración de la alegría.",
      perfeccionar := "Convertir la dispersión y la necesidad de aprobación en responsabilidad creativa y expresión auténtica." }
  | 4 => some
    { nombre := "Canal de Estructura y Disciplina Espiritual",
      descripcion := "Energía relacionada con la construcción de recipientes firmes. Es la tarea de crear vasijas internas estables para sostener la Luz: orden, disciplina y trabajo constante.",
      perfeccionar := "Soltar la rigidez y el control excesivo para integrar confianza, flexibilidad y fe en el proceso." }
  | 5 => some
    { nombre := "Canal de Cambio y Libertad del Alma",
      descripcion := "Energía asociada al movimiento, el viaje y la expansión. Representa al alma que busca romper viejas limitaciones y expandir su conciencia a través de experiencias intensas.",
      perfeccionar := "Transformar la huida y el miedo al compromiso en libertad interior con responsabilidad." }
  | 6 => some
    { nombre := "Canal de Responsabilidad y Amor en el Hogar",
      descripcion := "Energía ligada al cuidado, la armonía familiar y la belleza. Es un campo donde el alma aprende a manifestar amor consciente en lo cotidiano, sin olvidarse de sí misma.",
      perfeccionar := "Sanar el perfeccionismo y la autoexigencia, aprendiendo a cuidar sin cargar con todo el peso del mundo." }
  | 7 => some
    { nombre := "Canal de Sabiduría Interior y Búsqueda Espiritual",
      descripcion := "Energía conectada con la introspección, el estudio y el misterio. Es el alma que busca entender la causa detrás de cada efecto y no se conforma con lo superficial.",
      perfeccionar := "Transformar el aislamiento, la desconfianza y el exceso de mente en confianza espiritual y apertura al vínculo." }
  | 8 => some
    { nombre := "Canal de Poder, Abundancia y Rectificación del Deseo",
      descripcion := "Energía vinculada a la manifestación en el plano material: liderazgo, recursos y autoridad. Tiene que ver con corregir el deseo de recibir solo para uno mismo hacia el deseo de recibir para compartir.",
      perfeccionar := "Usar el poder y la abundancia como canales de Luz, no solo como logros del ego." }
  | 9 => some
    { nombre := "Canal de Compasión y Servicio Universal",
      descripcion := "Energía que vibra con el cierre de ciclos, el perdón y el servicio al colectivo. Invita a comprender que todas las almas están conectadas.",
      perfeccionar := "Soltar el apego al sufrimiento y al rol de salvador, integrando un servicio equilibrado y amoroso." }
  | 11 => some
    { nombre := "Canal Maestro de Intuición y Revelación",
      descripcion := "Número maestro asociado a una sensibilidad espiritual muy elevada. Es un canal para recibir inspiración, visiones y mensajes que aportan claridad a otros.",
      perfeccionar := "Confiar en tu intuición sin dejarte paralizar por el miedo al juicio, integrando tu visión espiritual en la vida práctica diaria." }
  | 22 => some
    { nombre := "Canal Maestro de Construcción del Mundo",
      descripcion := "Número maestro ligado a la capacidad de materializar grandes proyectos colectivos. Es la misión de convertir ideas elevadas en recipientes concretos en el mundo físico.",
      perfeccionar := "Equilibrar la presión interna de lograr cosas grandes con el autocuidado, la paciencia y la humildad." }
  | 33 => some
    { nombre := "Canal Maestro de Amor y Sanación",
      descripcion := "Número maestro conectado con el amor expansivo y la sanación profunda. Sostiene procesos emocionales o espirituales muy sensibles.",
      perfeccionar := "Aprender a servir sin vaciarte, sosteniendo límites amorosos y respetando tu propia energía vital." }
  | _ => none

/-- Sentinel entry returned by `arquetipo_desde_numero` for a number
without a configured archetype. -/
def arquetipoNoDefinido : ArquetipoInfo :=
  { nombre := "Arquetipo no definido",
    descripcion := "El número calculado no tiene un arquetipo configurado en este script.",
    perfeccionar := "No hay información de tikkun configurada para este número." }

/-- Embeds `arquetipo_desde_numero` of `Arquetipo_2.py`: table lookup with the
undefined-archetype sentinel as fallback. -/
def arquetipo_desde_numero (numero : Nat) : ArquetipoInfo :=
  (arquetipos numero).getD arquetipoNoDefinido

/-- Structure of one entry of `PLANTILLAS_TIKKUN` (keys tema_central,
patrones, rectificacion_frases, claves, preguntas). -/
structure Plantilla where
  tema_central : List String
  patrones : List String
  rectificacion_frases : List String
  claves : List String
  preguntas : List String
deriving DecidableEq, Repr

/-- The module-level table `PLANTILLAS_TIKKUN` of `Arquetipo_2.py`,
transcribed verbatim. -/
def PLANTILLAS_TIKKUN (numero : Nat) : Option Plantilla :=
  match numero with
  | 1 => some
    {
      tema_central := [
        "Aprender a usar tu fuerza de inicio como canal de Luz y no como imposición del ego.",
        "Pasar de la soledad orgullosa a la autenticidad que permite recibir ayuda sin sentirse débil."
      ],
      patrones := [
        "Sentirte responsable de abrir camino y tomar decisiones incluso cuando preferirías descansar.",
        "Choques con figuras de autoridad donde aparece el impulso de competir o demostrar que tienes razón.",
        "Momentos donde te exiges ser fuerte y autosuficiente, evitando mostrar vulnerabilidad."
      ],
      rectificacion_frases := [
        "Rectificar el orgullo y la dureza, transformándolos en liderazgo valiente y compasivo.",
        "Rectificar la idea de que pedir ayuda es debilidad, entendiendo que compartir también es fuerza."
      ],
      claves := [
        "Practicar decisiones donde elijas liderar sin aplastar las voces de los demás.",
        "Aprender a delegar pequeñas tareas para que el alma se acostumbre a no cargar con todo.",
        "Reconocer tus necesidades emocionales y expresarlas con honestidad."
      ],
      preguntas := [
        "Dónde estoy intentando hacerlo todo solo por miedo a que otros no estén a la altura.",
        "Qué parte de mí se siente obligada a ser siempre fuerte.",
        "Qué cambiaría si permitiera que mi liderazgo viniera más del corazón y menos del orgullo."
      ]
    }
  | 2 => some
    {
      tema_central := [
        "Sanar la dependencia emocional y el miedo al rechazo para crear vínculos de igualdad.",
        "Pasar de la necesidad de aprobación a la cooperación desde la dignidad."
      ],
      patrones := [
        "Relaciones donde te adaptas demasiado para no generar conflicto.",
        "Miedo a decir lo que sientes por temor a perder al otro.",
        "Dificultad para tomar decisiones solo por no equivocarte o decepcionar."
      ],
      rectificacion_frases := [
        "Rectificar la tendencia a borrarte para sostener la paz, transformándola en acuerdos claros y honestos.",
        "Rectificar la creencia de que solo mereces amor si no incomodas a nadie."
      ],
      claves := [
        "Practicar conversaciones donde expreses lo que sientes sin suavizar en exceso tu verdad.",
        "Reconocer cuándo ayudas desde el amor y cuándo lo haces por miedo a ser abandonado.",
        "Elegir relaciones donde tu voz tenga el mismo peso que la de los demás."
      ],
      preguntas := [
        "En qué situaciones sigo callando por miedo a perder a alguien.",
        "Dónde siento que doy más de lo que recibo.",
        "Qué aspecto de mi verdad ya no quiero seguir escondiendo."
      ]
    }
  | 3 => some
    {
      tema_central := [
        "Transformar la necesidad de ser visto en expresión auténtica del alma.",
        "Canalizar la creatividad como servicio y no solo como entretenimiento."
      ],
      patrones := [
        "Subidas y bajadas de ánimo según cuánto reconocimiento sientes que recibes.",
        "Muchos comienzos creativos y pocas cosas terminadas.",
        "Uso del humor o la ligereza para evitar entrar en emociones profundas."
      ],
      rectificacion_frases := [
        "Rectificar la búsqueda de validación externa, reconociendo tu valor incluso cuando nadie aplaude.",
        "Rectificar la dispersión creativa, enfocando tus dones en proyectos que construyan algo real."
      ],
      claves := [
        "Elegir un par de proyectos clave y comprometerte a terminarlos.",
        "Usar la escritura, el arte o la voz para procesar emociones, no solo para distraer.",
        "Aceptar que no siempre serás entendido en el momento, pero tu mensaje puede sembrar a largo plazo."
      ],
      preguntas := [
        "Dónde estoy usando la risa o la distracción para no sentir lo que realmente me pasa.",
        "Qué proyecto creativo necesito honrar terminándolo.",
        "Cómo sería expresar mi verdad incluso si nadie la celebra al inicio."
      ]
    }
  | 4 => some
    {
      tema_central := [
        "Construir estructura interna y externa sin caer en la rigidez.",
        "Aprender a confiar en la Luz incluso cuando el plan no se cumple como esperabas."
      ],
      patrones := [
        "Necesidad de tener todo bajo control para sentirte seguro.",
        "Miedo a los cambios imprevistos o a lo que no se puede planear.",
        "Tendencia a cargar con más responsabilidades de las que te corresponden."
      ],
      rectificacion_frases := [
        "Rectificar la rigidez mental, transformándola en disciplina flexible.",
        "Rectificar la idea de que todo depende solo de tu esfuerzo, integrando la confianza en algo superior."
      ],
      claves := [
        "Dejar pequeños espacios de improvisación en tu día para entrenar la flexibilidad.",
        "Aprender a decir que no a responsabilidades que no te pertenecen.",
        "Ver la disciplina como un acto de amor propio y no como castigo."
      ],
      preguntas := [
        "Qué parte de mi vida siento que se derrumba si dejo de controlar tanto.",
        "Dónde estoy siendo demasiado duro conmigo mismo.",
        "Qué estructura puedo crear que me dé paz en lugar de presión."
      ]
    }
  | 5 => some
    {
      tema_central := [
        "Convertir el impulso de huir en capacidad de transformar.",
        "Aprender a vivir la libertad como elección consciente, no como reacción al miedo."
      ],
      patrones := [
        "Etapas de entusiasmo intenso seguidas de aburrimiento o ganas de escapar.",
        "Cambios frecuentes de rumbo cuando algo empieza a sentirse rutinario.",
        "Dificultad para sostener compromisos a largo plazo."
      ],
      rectificacion_frases := [
        "Rectificar la impulsividad, transformando el impulso en movimiento con propósito.",
        "Rectificar la idea de que compromiso significa cárcel, descubriendo acuerdos que respetan tu alma."
      ],
      claves := [
        "Elegir conscientemente qué batallas y qué caminos valen tu energía a largo plazo.",
        "Introducir cambios sanos dentro de tus compromisos en lugar de romperlo todo.",
        "Explorar nuevas experiencias que expandan tu conciencia, no solo tu adrenalina."
      ],
      preguntas := [
        "Dónde suelo irme cuando algo se vuelve incómodo en lugar de transformarlo.",
        "Qué compromisos me dan vida y cuáles siento como cadena.",
        "Cómo puedo honrar mi necesidad de cambio sin destruir lo que ya construí."
      ]
    }
  | 6 => some
    {
      tema_central := [
        "Aprender a cuidar sin cargarte de más.",
        "Equilibrar el amor hacia otros con el amor hacia ti mismo."
      ],
      patrones := [
        "Ponerte en el rol de quien sostiene a todos.",
        "Sentir culpa cuando haces algo solo para ti.",
        "Perfeccionismo en la familia, en el hogar o en el trabajo de cuidado."
      ],
      rectificacion_frases := [
        "Rectificar la autoexigencia, transformándola en responsabilidad amorosa.",
        "Rectificar la creencia de que solo mereces amor si lo das todo y nunca fallas."
      ],
      claves := [
        "Practicar el descanso como una forma de servicio a tu propia alma.",
        "Aceptar que el error también educa y humaniza las relaciones.",
        "Reconocer cuándo un cuidado es amor y cuándo se vuelve sacrificio tóxico."
      ],
      preguntas := [
        "En qué áreas me estoy descuidando mientras cuido a otros.",
        "Qué expectativas irreales tengo sobre mí en el rol de cuidador o figura de apoyo.",
        "Qué cambiaría si me permitiera ser suficiente tal como soy ahora."
      ]
    }
  | 7 => some
    {
      tema_central := [
        "Unir mente y corazón, conocimiento y experiencia.",
        "Aprender a confiar no solo en los datos, sino también en la intuición y en la vida."
      ],
      patrones := [
        "Necesidad de entenderlo todo antes de dar un paso.",
        "Periodos de aislamiento para proteger tu mundo interior.",
        "Desconfianza hacia lo emocional o hacia lo que no tiene una lógica clara."
      ],
      rectificacion_frases := [
        "Rectificar el exceso de análisis que paraliza la acción.",
        "Rectificar la desconfianza en la vida, abriéndote poco a poco al vínculo y a la vulnerabilidad."
      ],
      claves := [
        "Combinar estudio y práctica, no quedarte solo en la teoría.",
        "Elegir una o dos personas con las que puedas mostrar tu mundo interior sin máscaras.",
        "Tomar decisiones pequeñas guiadas por intuiciones suaves, no solo por cálculos mentales."
      ],
      preguntas := [
        "Dónde me escondo detrás de la mente para no sentir.",
        "Qué tipo de espiritualidad resuena conmigo más allá de dogmas.",
        "Qué miedo aparece cuando pienso en confiar más en otros."
      ]
    }
  | 8 => some
    {
      tema_central := [
        "Usar el poder y los recursos como canales de Luz.",
        "Aprender a liderar desde la ética y la conciencia, no solo desde el resultado."
      ],
      patrones := [
        "Atracción a escenarios de poder, dinero, liderazgo o conflicto.",
        "Sensación de cargar con grandes responsabilidades materiales.",
        "Tensiones con figuras de autoridad o con estructuras de control."
      ],
      rectificacion_frases := [
        "Rectificar el uso del poder para beneficio solo personal, transformándolo en poder compartido.",
        "Rectificar la dureza frente a la vulnerabilidad propia y ajena."
      ],
      claves := [
        "Definir qué significa para ti el éxito con conciencia.",
        "Elegir proyectos donde tu impacto beneficie a más personas, no solo a tu ego.",
        "Practicar la generosidad responsable con tu tiempo, dinero y energía."
      ],
      preguntas := [
        "Qué entiendo hoy por poder y qué me gustaría entender en el futuro.",
        "Dónde siento que el dinero o el reconocimiento gobiernan demasiado mis decisiones.",
        "Cómo puedo liderar de una forma que deje más Luz que miedo."
      ]
    }
  | 9 => some
    {
      tema_central := [
        "Cerrar ciclos con amor y desapego.",
        "Transformar el dolor del pasado en sabiduría y servicio."
      ],
      patrones := [
        "Tendencia a quedarte en historias que ya se terminaron.",
        "Fácil conexión con el sufrimiento ajeno y con causas colectivas.",
        "Dificultad para priorizarte cuando ves a otros pasándolo mal."
      ],
      rectificacion_frases := [
        "Rectificar el apego al rol de salvador, permitiendo que cada alma haga su camino.",
        "Rectificar la culpa por soltar personas o situaciones que ya cumplieron su ciclo."
      ],
      claves := [
        "Honrar los cierres como actos de amor, no como fracasos.",
        "Elegir pocas causas o personas a las que acompañar a profundidad.",
        "Usar tu sensibilidad para inspirar esperanza, no solo para cargar dolor."
      ],
      preguntas := [
        "Qué etapa de mi vida se siente cerrada, pero aún no me animo a soltar del todo.",
        "Dónde sigo cargando responsabilidades emocionales que no son mías.",
        "Qué me gustaría ofrecer al mundo desde mi experiencia de dolor y sanación."
      ]
    }
  | 11 => some
    {
      tema_central := [
        "Pasar del control al liderazgo consciente alineado con la Luz.",
        "Equilibrar una sensibilidad muy alta con una estructura interna sólida.",
        "Aprender a confiar en tu intuición como canal, sin miedo a lo que percibes.",
        "Transformar vínculos de dependencia en relaciones de cooperación y coautoría."
      ],
      patrones := [
        "Personas que se apoyan mucho en ti o que te buscan como consejero aunque tú no te sientas listo.",
        "Situaciones donde te toca tomar decisiones clave para otros o sostener procesos delicados.",
        "Relaciones en las que terminas dando más de lo que recibes, con dificultad para soltar.",
        "Momentos de contraste entre gran fuerza interior y estados de vulnerabilidad o agotamiento emocional.",
        "Encuentros repetidos con sistemas o figuras de autoridad rígidas, que te invitan a posicionarte sin destruirte ni someterte."
      ],
      rectificacion_frases := [
        "Rectificar el uso del poder personal, pasando del control y la dureza a la autoridad sana y compasiva.",
        "Rectificar la tendencia a perderte en el otro, creando vínculos con límites claros y reciprocidad.",
        "Rectificar el miedo a tu propia intuición, transformándolo en confianza en la guía interna y en la Luz.",
        "Rectificar la costumbre de cargar culpas ajenas, asumiendo solo la responsabilidad que realmente te corresponde."
      ],
      claves := [
        "Aprender a decir que no sin sentirte egoísta, entendiendo que el límite también es Luz.",
        "Cuidar tu sistema nervioso con descanso, silencio, escritura y espacios de conexión espiritual.",
        "Elegir relaciones y proyectos donde la cooperación sea real y no solo un discurso.",
        "Trabajar el perdón hacia ti mismo por decisiones pasadas, viendo cada etapa como parte del aprendizaje del alma.",
        "Convertir tu visión y sensibilidad en servicio concreto: proyectos, estudios, acompañamientos, contenido.",
        "Practicar actos pequeños de liderazgo consciente: hablar con honestidad, marcar dirección, sostener acuerdos claros."
      ],
      preguntas := [
        "En qué situaciones recientes sentí que estaba controlando por miedo y no liderando desde la confianza.",
        "Dónde sigo intentando salvar a personas o sistemas que no quieren cambiar.",
        "Qué parte de mi sensibilidad aún juzgo como debilidad.",
        "Qué tipo de líder del alma quiero ser en mi casa, trabajo y relaciones.",
        "Qué ciclo necesito cerrar para liberar energía y caminar más ligero."
      ]
    }
  | 22 => some
    {
      tema_central := [
        "Materializar visión espiritual en proyectos concretos.",
        "Usar tu capacidad organizativa para construir algo que trascienda lo personal."
      ],
      patrones := [
        "Atracción a metas grandes que a veces parecen imposibles.",
        "Sensación de presión interna por no estar haciendo lo suficiente.",
        "Dificultad para equilibrar la vida personal con proyectos de gran escala."
      ],
      rectificacion_frases := [
        "Rectificar la autoexigencia extrema, integrando paciencia y procesos.",
        "Rectificar la tendencia a descuidar tu mundo emocional por el logro externo."
      ],
      claves := [
        "Dividir tus grandes visiones en pasos pequeños y sostenibles.",
        "Recordar que el proyecto más importante también eres tú.",
        "Aliarte con personas que compartan tu visión en lugar de cargar tú solo con todo."
      ],
      preguntas := [
        "Qué visión de largo plazo me inspira de verdad.",
        "Qué parte de mí siente que nunca es suficiente.",
        "Cómo puedo construir algo grande cuidando también de mi cuerpo y mis emociones."
      ]
    }
  | 33 => some
    {
      tema_central := [
        "Encarnar un amor profundo que no olvida los propios límites.",
        "Sostener procesos de sanación sin sacrificar tu energía vital."
      ],
      patrones := [
        "Personas que descargan en ti sus dolores y confían en tu contención.",
        "Cansancio emocional por asumir demasiados procesos ajenos.",
        "Confusión entre ayudar y hacerse cargo de lo que no te corresponde."
      ],
      rectificacion_frases := [
        "Rectificar la identificación con el rol de salvador.",
        "Rectificar la culpa por poner límites cuando ya estás saturado."
      ],
      claves := [
        "Definir con claridad qué sí puedes ofrecer y qué no.",
        "Aprender a retirarte a tiempo antes de agotarte.",
        "Cuidar tu cuerpo, tu descanso y tu alegría como parte esencial de tu misión."
      ],
      preguntas := [
        "Dónde estoy intentando sanar algo que no me corresponde.",
        "Qué señales me da mi cuerpo cuando ya es demasiado.",
        "Qué tipo de amor quiero encarnar que incluya también amor por mí."
      ]
    }
  | _ => none

/-- The module-level table `MESES_NOMBRE` of `Arquetipo_2.py`. -/
def MESES_NOMBRE (m : Nat) : Option String :=
  match m with
  | 1 => some "enero"
  | 2 => some "febrero"
  | 3 => some "marzo"
  | 4 => some "abril"
  | 5 => some "mayo"
  | 6 => some "junio"
  | 7 => some "julio"
  | 8 => some "agosto"
  | 9 => some "septiembre"
  | 10 => some "octubre"
  | 11 => some "noviembre"
  | 12 => some "diciembre"
  | _ => none

/-- The dictionary `descripciones` inside `obtener_energia_basica` of
`Arquetipo_2.py`. -/
def descripciones_energia (n : Nat) : Option String :=
  match n with
  | 1 => some "impulso, identidad, coraje para iniciar"
  | 2 => some "sensibilidad, cooperación y energía de vínculo"
  | 3 => some "creatividad, expresión y alegría"
  | 4 => some "estructura, orden y disciplina"
  | 5 => some "cambio, libertad y experiencias intensas"
  | 6 => some "amor, responsabilidad y cuidado"
  | 7 => some "búsqueda interior, análisis y espiritualidad"
  | 8 => some "poder personal, logro y materia"
  | 9 => some "compasión, cierre de ciclos y servicio"
  | _ => none

/-- Embeds `obtener_energia_basica` of `Arquetipo_2.py`: always reduces to a
single digit and looks up the short energy description. -/
def obtener_energia_basica (numero : Nat) : Except Err (Nat × String) := do
  let reducido ← reducir_simple numero
  .ok (reducido, (descripciones_energia reducido).getD "energía no definida")

/-- Record returned by `calcular_arquetipo` (the Python dict with keys
nombre_input, fecha_input, info_fecha, numero_vida, arquetipo_vida,
numero_nombre, arquetipo_nombre). -/
structure Resultado where
  nombre_input : String
  fecha_input : String
  info_fecha : InfoFecha
  numero_vida : Nat
  arquetipo_vida : ArquetipoInfo
  numero_nombre : Nat
  arquetipo_nombre : ArquetipoInfo
deriving DecidableEq, Repr

/-- Embeds `calcular_arquetipo` of `Arquetipo_2.py`: date analysis first, then the
name number, then the two archetype lookups. -/
def calcular_arquetipo (nombre fecha_nacimiento : String) : Except Err Resultado := do
  let info_fecha ← analizar_fecha_numerologia fecha_nacimiento
  let num_vida := info_fecha.numero_vida
  let num_nombre ← numero_desde_nombre nombre
  .ok { nombre_input := nombre, fecha_input := fecha_nacimiento,
        info_fecha := info_fecha, numero_vida := num_vida,
        arquetipo_vida := arquetipo_desde_numero num_vida,
        numero_nombre := num_nombre,
        arquetipo_nombre := arquetipo_desde_numero num_nombre }

/-- Template resolution of `generar_informe_kabalista` (lines 690-701 of
`Arquetipo_2.py`): the life number first, then the simple digit, then a
synthesized minimal template built from the life archetype. -/
def plantillaParaInforme (numero_vida base_simple : Nat) (arq_vida : ArquetipoInfo) : Plantilla :=
  match PLANTILLAS_TIKKUN numero_vida with
  | some p => p
  | none =>
    match PLANTILLAS_TIKKUN base_simple with
    | some p => p
    | none =>
      { tema_central := [arq_vida.perfeccionar],
        patrones := [],
        rectificacion_frases := [arq_vida.perfeccionar],
        claves := [],
        preguntas := [] }

/-- Models the f-string `f"• \x7bfrase\x7d"` prefixing a bullet. -/
def vineta (frase : String) : String :=
  "• " ++ frase

/-- The list `lineas` built by `generar_informe_kabalista` (lines 703-788 of
`Arquetipo_2.py`), given the values computed before it. -/
def lineasInforme (dia mes ano suma_ano base_total : Nat)
    (representacion_camino : String) (numero_nombre : Nat)
    (arq_vida arq_nombre : ArquetipoInfo)
    (energia_dia_num : Nat) (energia_dia_desc : String)
    (energia_mes_num : Nat) (energia_mes_desc : String)
    (energia_ano_num : Nat) (energia_ano_desc : String)
    (plantilla : Plantilla) : List String :=
  let nombre_mes := (MESES_NOMBRE mes).getD ("mes " ++ toString mes)
  [ "Voy directo al grano usando tu fecha: " ++ toString dia ++ " de " ++
      nombre_mes ++ " de " ++ toString ano ++ ".",
    "",
    "Desde la mirada numerológica kabalista, como mapa simbólico y no como sentencia rígida, tu fecha habla de un camino " ++
      representacion_camino ++ ".",
    "Ese camino se apoya especialmente en la energía de tu día y tu mes de nacimiento, que colorean la forma en que vives tu tikkun.",
    "" ]
  ++ [ "Suma básica de la fecha:",
       "• Día del nacimiento: " ++ toString dia,
       "• Mes del nacimiento: " ++ toString mes,
       "• Año de nacimiento: " ++ toString ano ++ " → suma de sus dígitos " ++ toString suma_ano,
       "Total: " ++ toString dia ++ " (día) + " ++ toString mes ++ " (mes) + " ++
         toString suma_ano ++ " (suma del año) = " ++ toString base_total ++
         " → camino " ++ representacion_camino,
       "" ]
  ++ [ "Energías que sostienen tu camino de alma:",
       "• Día " ++ toString dia ++ ": resuena en una energía " ++ toString energia_dia_num ++
         " asociada a " ++ energia_dia_desc ++ ".",
       "• Mes " ++ toString mes ++ ": resuena en una energía " ++ toString energia_mes_num ++
         " asociada a " ++ energia_mes_desc ++ ".",
       "• Año " ++ toString ano ++ " con suma " ++ toString suma_ano ++ ": energía " ++
         toString energia_ano_num ++ " asociada a " ++ energia_ano_desc ++ ".",
       "" ]
  ++ [ "Arquetipo central según tu número de vida:",
       "• Arquetipo kabalista de vida: " ++ arq_vida.nombre,
       "• Descripción general: " ++ arq_vida.descripcion,
       "" ]
  ++ [ "Tema central de tu tikkun, lo que vienes a rectificar en esta encarnación:" ]
  ++ plantilla.tema_central.map vineta
  ++ [ "" ]
  ++ (if plantilla.patrones = [] then [] else
        [ "Patrones que tienden a repetirse para este arquetipo, donde suele activarse el trabajo del alma:" ]
        ++ plantilla.patrones.map vineta
        ++ [ "" ])
  ++ [ "Lo que vienes a rectificar, en frases directas:" ]
  ++ plantilla.rectificacion_frases.map vineta
  ++ [ "• En resumen, tu tikkun de fondo es: " ++ arq_vida.perfeccionar,
       "" ]
  ++ (if plantilla.claves = [] then [] else
        [ "Claves de sanación y evolución para tu arquetipo:" ]
        ++ plantilla.claves.map vineta
        ++ [ "" ])
  ++ (if plantilla.preguntas = [] then [] else
        [ "Preguntas para trabajar este proceso en escritura, reflexión o meditación:" ]
        ++ plantilla.preguntas.map vineta
        ++ [ "" ])
  ++ [ "Aportación de tu nombre, es decir, cómo se expresa tu alma en el mundo:",
       "• Tu nombre, al vibrar en el número " ++ toString numero_nombre ++
         ", se asocia al arquetipo " ++ arq_nombre.nombre ++ ".",
       "• Descripción: " ++ arq_nombre.descripcion,
       "• Tikkun asociado a tu forma de expresarte y relacionarte: " ++ arq_nombre.perfeccionar,
       "",
       "En otras palabras, la fecha muestra el plan de fondo del alma y el nombre muestra el estilo con el que encarnas ese plan en la realidad diaria." ]

/-- Embeds `generar_informe_kabalista` of `Arquetipo_2.py`: the core entry point,
joining the report lines with newlines. -/
def generar_informe_kabalista (nombre fecha_nacimiento : String) : Except Err String := do
  let datos ← calcular_arquetipo nombre fecha_nacimiento
  let info_fecha := datos.info_fecha
  let energia_dia ← obtener_energia_basica info_fecha.dia
  let energia_mes ← obtener_energia_basica info_fecha.mes
  let energia_ano ← obtener_energia_basica info_fecha.suma_ano
  let plantilla := plantillaParaInforme info_fecha.numero_vida info_fecha.base_simple
    datos.arquetipo_vida
  .ok (String.intercalate "\n"
    (lineasInforme info_fecha.dia info_fecha.mes info_fecha.ano info_fecha.suma_ano
      info_fecha.base_total info_fecha.representacion_camino datos.numero_nombre
      datos.arquetipo_vida datos.arquetipo_nombre
      energia_dia.1 energia_dia.2 energia_mes.1 energia_mes.2
      energia_ano.1 energia_ano.2 plantilla))

section Evaluaciones

theorem digitSum_1990 : digitSum 1990 = 19 := by
  simp [digitSum]

theorem reducirNumeroLoop_56 : reducirNumeroLoop 56 = 11 := by
  simp [reducirNumeroLoop, digitSum]

theorem reducirSimpleLoop_11 : reducirSimpleLoop 11 = 2 := by
  simp [reducirSimpleLoop, digitSum]

theorem reducirNumeroLoop_24 : reducirNumeroLoop 24 = 6 := by
  simp [reducirNumeroLoop, digitSum]

/-- The worked values of the example date in ISO form. -/
theorem analizar_eval_iso :
    analizar_fecha_numerologia "1990-12-25" =
      .ok { dia := 25, mes := 12, ano := 1990, suma_ano := 19, base_total := 56,
            numero_vida := 11, base_simple := 2, representacion_camino := "11/2" } := by
  have hp : parseFecha (stripLista "1990-12-25".data) = some (25, 12, 1990) := rfl
  unfold analizar_fecha_numerologia
  rw [hp]
  simp only [digitSum_1990]
  norm_num
  simp only [reducir_numero, reducir_simple, reducirNumeroLoop_56, reducirSimpleLoop_11]
  norm_num [Bind.bind, Except.bind]
  refine ⟨reducirSimpleLoop_11, ?_⟩
  rw [reducirSimpleLoop_11]
  rfl

/-- The worked values of the example date in day-first form. -/
theorem analizar_eval_dd :
    analizar_fecha_numerologia "25/12/1990" =
      .ok { dia := 25, mes := 12, ano := 1990, suma_ano := 19, base_total := 56,
            numero_vida := 11, base_simple := 2, representacion_camino := "11/2" } := by
  have hp : parseFecha (stripLista "25/12/1990".data) = some (25, 12, 1990) := rfl
  unfold analizar_fecha_numerologia
  rw [hp]
  simp only [digitSum_1990]
  norm_num
  simp only [reducir_numero, reducir_simple, reducirNumeroLoop_56, reducirSimpleLoop_11]
  norm_num [Bind.bind, Except.bind]
  refine ⟨reducirSimpleLoop_11, ?_⟩
  rw [reducirSimpleLoop_11]
  rfl

/-- February has no 31st day, so the calendar-invalid example fails. -/
theorem analizar_eval_bad : analizar_fecha_numerologia "31/02/2000" = .error .invalidDate := by
  have hp : parseFecha (stripLista "31/02/2000".data) = none := rfl
  unfold analizar_fecha_numerologia
  rw [hp]

theorem nombre_eval_maria : numero_desde_nombre "María" = .ok 6 := by
  have h24 : ("MARIA".data.map letra_a_numero).sum = 24 := rfl
  have hnorm : normalizar_nombre "María" = "MARIA" := rfl
  unfold numero_desde_nombre
  rw [hnorm, if_neg (by decide : ¬("MARIA".data = [])), h24]
  simp [reducir_numero, reducirNumeroLoop_24]

theorem nombre_eval_123 : numero_desde_nombre "123" = .error .invalidInput := rfl

end Evaluaciones

/-- Whenever `analizar_fecha_numerologia` succeeds, the fields of the result
satisfy the algorithm of the specification: the year digit sum, the base
total, the master-aware and plain reductions, and the path label. -/
theorem analizar_fields (s : String) (info : InfoFecha)
    (h : analizar_fecha_numerologia s = .ok info) :
    info.suma_ano = digitSum info.ano ∧
    info.base_total = info.dia + info.mes + info.suma_ano ∧
    reducir_numero info.base_total = .ok info.numero_vida ∧
    reducir_simple info.numero_vida = .ok info.base_simple ∧
    info.representacion_camino =
      (if info.numero_vida = 11 ∨ info.numero_vida = 22 ∨ info.numero_vida = 33 then
        toString info.numero_vida ++ "/" ++ toString info.base_simple
      else toString info.numero_vida) := by
  unfold analizar_fecha_numerologia at h
  cases hp : parseFecha (stripLista s.data) with
  | none => rw [hp] at h; cases h
  | some t =>
    obtain ⟨d, m, y⟩ := t
    rw [hp] at h
    simp only [bind, Except.bind] at h
    cases hr1 : reducir_numero (d + m + digitSum y) with
    | error e => rw [hr1] at h; simp at h
    | ok nv =>
      rw [hr1] at h
      dsimp only at h
      cases hr2 : reducir_simple nv with
      | error e => rw [hr2] at h; simp at h
      | ok bs =>
        rw [hr2] at h
        dsimp only at h
        injection h with h
        subst h
        exact ⟨rfl, rfl, hr1, hr2, rfl⟩

/-- The worked example of the whole pipeline: María born 25/12/1990. -/
theorem calcular_eval_maria :
    calcular_arquetipo "María" "25/12/1990" =
      .ok { nombre_input := "María", fecha_input := "25/12/1990",
            info_fecha := { dia := 25, mes := 12, ano := 1990, suma_ano := 19,
                            base_total := 56, numero_vida := 11, base_simple := 2,
                            representacion_camino := "11/2" },
            numero_vida := 11, arquetipo_vida := arquetipo_desde_numero 11,
            numero_nombre := 6, arquetipo_nombre := arquetipo_desde_numero 6 } := by
  unfold calcular_arquetipo
  rw [analizar_eval_dd]
  simp only [bind, Except.bind]
  rw [nombre_eval_maria]

/-- Claim C1: for every positive integer n, reducir_numero succeeds with a value
in the set of digits 1 to 9 or the master numbers 11, 22, 33, and
reducir_simple succeeds with a value between 1 and 9; both repeatedly
replace n by its decimal digit sum, the master-aware loop halting as soon
as n is below 10 or equal to 11, 22 or 33, the plain loop as soon as n is
below 10. -/
theorem claim_C1 (n : Nat) (h : 1 ≤ n) :
    reducir_numero n = .ok (reducirNumeroLoop n) ∧
    ((1 ≤ reducirNumeroLoop n ∧ reducirNumeroLoop n ≤ 9) ∨
      reducirNumeroLoop n = 11 ∨ reducirNumeroLoop n = 22 ∨ reducirNumeroLoop n = 33) ∧
    reducir_simple n = .ok (reducirSimpleLoop n) ∧
    (1 ≤ reducirSimpleLoop n ∧ reducirSimpleLoop n ≤ 9) ∧
    (¬(10 ≤ n ∧ n ≠ 11 ∧ n ≠ 22 ∧ n ≠ 33) → reducirNumeroLoop n = n) ∧
    ((10 ≤ n ∧ n ≠ 11 ∧ n ≠ 22 ∧ n ≠ 33) →
      reducirNumeroLoop n = reducirNumeroLoop (digitSum n)) ∧
    (n < 10 → reducirSimpleLoop n = n) ∧
    (10 ≤ n → reducirSimpleLoop n = reducirSimpleLoop (digitSum n)) := by
  refine ⟨?_, reducirNumeroLoop_range n h, ?_, reducirSimpleLoop_range n h,
    reducirNumeroLoop_halt n, reducirNumeroLoop_step n,
    reducirSimpleLoop_halt n, reducirSimpleLoop_step n⟩
  · unfold reducir_numero
    rw [if_neg (by omega : ¬n = 0)]
  · unfold reducir_simple
    rw [if_neg (by omega : ¬n = 0)]

/-- Witness for C1 at the concrete input 56. -/
theorem claim_C1_witness :
    1 ≤ 56 ∧
    (reducir_numero 56 = .ok (reducirNumeroLoop 56) ∧
    ((1 ≤ reducirNumeroLoop 56 ∧ reducirNumeroLoop 56 ≤ 9) ∨
      reducirNumeroLoop 56 = 11 ∨ reducirNumeroLoop 56 = 22 ∨ reducirNumeroLoop 56 = 33) ∧
    reducir_simple 56 = .ok (reducirSimpleLoop 56) ∧
    (1 ≤ reducirSimpleLoop 56 ∧ reducirSimpleLoop 56 ≤ 9) ∧
    (¬(10 ≤ 56 ∧ 56 ≠ 11 ∧ 56 ≠ 22 ∧ 56 ≠ 33) → reducirNumeroLoop 56 = 56) ∧
    ((10 ≤ 56 ∧ 56 ≠ 11 ∧ 56 ≠ 22 ∧ 56 ≠ 33) →
      reducirNumeroLoop 56 = reducirNumeroLoop (digitSum 56)) ∧
    (56 < 10 → reducirSimpleLoop 56 = 56) ∧
    (10 ≤ 56 → reducirSimpleLoop 56 = reducirSimpleLoop (digitSum 56))) :=
  ⟨by omega, claim_C1 56 (by omega)⟩

/-- Claim C2: whenever a date string is accepted, the result fields follow the
documented algorithm (year digit sum, base total, master-aware reduction,
simple digit, path label), and the two renderings of the example date give
the identical worked result: day 25, month 12, year 1990, year digit sum
19, base total 56, life number 11, simple digit 2, path label 11/2. -/
theorem claim_C2 (s : String) (info : InfoFecha)
    (h : analizar_fecha_numerologia s = .ok info) :
    (info.suma_ano = digitSum info.ano ∧
     info.base_total = info.dia + info.mes + info.suma_ano ∧
     reducir_numero info.base_total = .ok info.numero_vida ∧
     reducir_simple info.numero_vida = .ok info.base_simple ∧
     info.representacion_camino =
       (if info.numero_vida = 11 ∨ info.numero_vida = 22 ∨ info.numero_vida = 33 then
         toString info.numero_vida ++ "/" ++ toString info.base_simple
       else toString info.numero_vida)) ∧
    analizar_fecha_numerologia "1990-12-25" =
      .ok { dia := 25, mes := 12, ano := 1990, suma_ano := 19, base_total := 56,
            numero_vida := 11, base_simple := 2, representacion_camino := "11/2" } ∧
    analizar_fecha_numerologia "25/12/1990" =
      .ok { dia := 25, mes := 12, ano := 1990, suma_ano := 19, base_total := 56,
            numero_vida := 11, base_simple := 2, representacion_camino := "11/2" } :=
  ⟨analizar_fields s info h, analizar_eval_iso, analizar_eval_dd⟩

/-- Witness for C2 at the ISO rendering of the example date. -/
theorem claim_C2_witness :
    ((19 : Nat) = digitSum 1990 ∧
     (56 : Nat) = 25 + 12 + 19 ∧
     reducir_numero 56 = .ok 11 ∧
     reducir_simple 11 = .ok 2 ∧
     ("11/2" : String) =
       (if (11 : Nat) = 11 ∨ (11 : Nat) = 22 ∨ (11 : Nat) = 33 then
         toString (11 : Nat) ++ "/" ++ toString (2 : Nat)
       else toString (11 : Nat))) ∧
    analizar_fecha_numerologia "1990-12-25" =
      .ok { dia := 25, mes := 12, ano := 1990, suma_ano := 19, base_total := 56,
            numero_vida := 11, base_simple := 2, representacion_camino := "11/2" } ∧
    analizar_fecha_numerologia "25/12/1990" =
      .ok { dia := 25, mes := 12, ano := 1990, suma_ano := 19, base_total := 56,
            numero_vida := 11, base_simple := 2, representacion_camino := "11/2" } :=
  claim_C2 "1990-12-25" _ analizar_eval_iso

/-- Claim C7: the single-digit collapse of the master-aware reduction of a
positive n is the single-digit collapse of n itself. -/
theorem claim_C7 (n : Nat) (h : 1 ≤ n) (m : Nat) (hm : reducir_numero n = .ok m) :
    reducir_simple m = reducir_simple n := by
  unfold reducir_numero at hm
  rw [if_neg (by omega : ¬n = 0)] at hm
  injection hm with hm
  subst hm
  have hr := reducirNumeroLoop_range n h
  unfold reducir_simple
  rw [if_neg (by omega : ¬n = 0), if_neg (by omega : ¬reducirNumeroLoop n = 0),
    reducirSimpleLoop_reducirNumeroLoop n]

/-- Witness for C7 at the concrete input 56, reduced by masters to 11. -/
theorem claim_C7_witness : reducir_simple 11 = reducir_simple 56 := by
  have h56 : reducir_numero 56 = .ok 11 := by
    simp [reducir_numero, reducirNumeroLoop_56]
  exact claim_C7 56 (by omega) 11 h56

theorem char_toNat_ofNat {n : Nat} (h : Nat.isValidChar n) : (Char.ofNat n).toNat = n := by
  rw [Char.ofNat, dif_pos h]
  rfl

theorem toUpper_toNat_of_lower {c : Char} (h1 : 97 ≤ c.toNat) (h2 : c.toNat ≤ 122) :
    c.toUpper.toNat = c.toNat - 32 := by
  unfold Char.toUpper
  rw [if_pos ⟨h1, h2⟩]
  exact char_toNat_ofNat (Or.inl (by omega))

theorem toUpper_eq_self {c : Char} (h : ¬(97 ≤ c.toNat ∧ c.toNat ≤ 122)) : c.toUpper = c := by
  unfold Char.toUpper
  rw [if_neg h]

theorem nfkdChar_of_AZ {c : Char} (h1 : 65 ≤ c.toNat) (h2 : c.toNat ≤ 90) :
    nfkdChar c = [c] := by
  unfold nfkdChar
  split <;> simp_all

theorem combining_AZ {c : Char} (h2 : c.toNat ≤ 90) : combining c = false := by
  unfold combining
  simp
  omega

theorem esLetraAZ_of_AZ {c : Char} (h1 : 65 ≤ c.toNat) (h2 : c.toNat ≤ 90) :
    esLetraAZ c = true := by
  unfold esLetraAZ
  simp
  omega

theorem toUpper_mem_AZ {c : Char} (h : esLetraAZ c = true) :
    65 ≤ c.toUpper.toNat ∧ c.toUpper.toNat ≤ 90 := by
  unfold esLetraAZ at h
  simp at h
  rcases h with h | h
  · rw [toUpper_eq_self (by omega)]
    omega
  · have := toUpper_toNat_of_lower h.1 h.2
    omega

/-- Normalization is the identity on a list of uppercase ASCII letters. -/
theorem normalizarLista_fixed (l : List Char)
    (h : ∀ c ∈ l, 65 ≤ c.toNat ∧ c.toNat ≤ 90) : normalizarLista l = l := by
  induction l with
  | nil => rfl
  | cons c t ih =>
    have hc := h c (List.mem_cons_self c t)
    have ht : ∀ x ∈ t, 65 ≤ x.toNat ∧ x.toNat ≤ 90 :=
      fun x hx => h x (List.mem_cons_of_mem c hx)
    have h2 : esLetraAZ c = true := esLetraAZ_of_AZ hc.1 hc.2
    have h3 : c.toUpper = c := toUpper_eq_self (by omega)
    have ihx := ih ht
    simp only [normalizarLista, List.flatMap_cons] at ihx ⊢
    rw [nfkdChar_of_AZ hc.1 hc.2, List.singleton_append]
    simp only [List.filter_cons, combining_AZ hc.2, h2, Bool.not_false, if_true,
      List.map_cons, h3, ihx]

/-- Every character of a normalized name is an uppercase ASCII letter. -/
theorem normalizarLista_mem (l : List Char) (c : Char) (hc : c ∈ normalizarLista l) :
    65 ≤ c.toNat ∧ c.toNat ≤ 90 := by
  unfold normalizarLista at hc
  obtain ⟨b, hb, rfl⟩ := List.mem_map.1 hc
  exact toUpper_mem_AZ (List.mem_filter.1 hb).2

/-- Claim C8: name normalization is idempotent; normalizing an already normalized
string changes nothing. -/
theorem claim_C8 (s : String) :
    normalizar_nombre (normalizar_nombre s) = normalizar_nombre s := by
  unfold normalizar_nombre
  congr 1
  exact normalizarLista_fixed _ (fun c hc => normalizarLista_mem s.data c hc)

theorem mapaPitagorico_none (d : Char)
    (h : d ∉ (['A','B','C','D','E','F','G','H','I','J','K','L','M',
               'N','O','P','Q','R','S','T','U','V','W','X','Y','Z'] : List Char)) :
    mapaPitagorico d = none := by
  unfold mapaPitagorico
  split <;> simp_all

/-- Claim C4: the name number pipeline uses the fixed Pythagorean cipher on the
26 letters, sends every character whose uppercase form is not one of them
to 0, and on the worked example normalizes Maria with accent to MARIA,
sums the cipher values to 24 and reduces with masters to 6. -/
theorem claim_C4 (c : Char)
    (h : c.toUpper ∉ (['A','B','C','D','E','F','G','H','I','J','K','L','M',
                       'N','O','P','Q','R','S','T','U','V','W','X','Y','Z'] : List Char)) :
    letra_a_numero c = 0 ∧
    letra_a_numero 'A' = 1 ∧
    letra_a_numero 'J' = 1 ∧
    letra_a_numero 'S' = 1 ∧
    letra_a_numero 'B' = 2 ∧
    letra_a_numero 'K' = 2 ∧
    letra_a_numero 'T' = 2 ∧
    letra_a_numero 'C' = 3 ∧
    letra_a_numero 'L' = 3 ∧
    letra_a_numero 'U' = 3 ∧
    letra_a_numero 'D' = 4 ∧
    letra_a_numero 'M' = 4 ∧
    letra_a_numero 'V' = 4 ∧
    letra_a_numero 'E' = 5 ∧
    letra_a_numero 'N' = 5 ∧
    letra_a_numero 'W' = 5 ∧
    letra_a_numero 'F' = 6 ∧
    letra_a_numero 'O' = 6 ∧
    letra_a_numero 'X' = 6 ∧
    letra_a_numero 'G' = 7 ∧
    letra_a_numero 'P' = 7 ∧
    letra_a_numero 'Y' = 7 ∧
    letra_a_numero 'H' = 8 ∧
    letra_a_numero 'Q' = 8 ∧
    letra_a_numero 'Z' = 8 ∧
    letra_a_numero 'I' = 9 ∧
    letra_a_numero 'R' = 9 ∧
    normalizar_nombre "María" = "MARIA" ∧
    "MARIA".data.map letra_a_numero = [4, 1, 9, 9, 1] ∧
    ("MARIA".data.map letra_a_numero).sum = 24 ∧
    numero_desde_nombre "María" = .ok 6 := by
  refine ⟨?_, ?_⟩
  · unfold letra_a_numero
    rw [mapaPitagorico_none _ h]
    rfl
  · exact ⟨rfl, rfl, rfl, rfl, rfl, rfl, rfl, rfl, rfl, rfl, rfl, rfl, rfl, rfl, rfl, rfl, rfl, rfl, rfl, rfl, rfl, rfl, rfl, rfl, rfl, rfl, rfl, rfl, rfl, nombre_eval_maria⟩

/-- Witness for C4 at the concrete non-letter character 3. -/
theorem claim_C4_witness : letra_a_numero '3' = 0 :=
  (claim_C4 '3' (by decide)).1

theorem analizar_err_of_parse_none (s : String)
    (h : parseFecha (stripLista s.data) = none) :
    analizar_fecha_numerologia s = .error .invalidDate := by
  unfold analizar_fecha_numerologia
  rw [h]

theorem generar_err_invalidDate (nombre fecha : String)
    (h : parseFecha (stripLista fecha.data) = none) :
    generar_informe_kabalista nombre fecha = .error .invalidDate := by
  have ha := analizar_err_of_parse_none fecha h
  unfold generar_informe_kabalista calcular_arquetipo
  rw [ha]
  rfl

theorem numero_desde_nombre_err (nombre : String)
    (hn : normalizarLista nombre.data = []) :
    numero_desde_nombre nombre = .error .invalidInput := by
  unfold numero_desde_nombre normalizar_nombre
  rw [if_pos hn]

theorem generar_err_invalidInput (nombre fecha : String) (info : InfoFecha)
    (hn : normalizarLista nombre.data = [])
    (hf : analizar_fecha_numerologia fecha = .ok info) :
    generar_informe_kabalista nombre fecha = .error .invalidInput := by
  have hnom := numero_desde_nombre_err nombre hn
  unfold generar_informe_kabalista calcular_arquetipo
  rw [hf]
  simp only [bind, Except.bind]
  rw [hnom]

/-- Claim C5: report generation fails with the invalid-date error for every date
string rejected by both accepted formats or by the calendar (in particular
the 31st of February 2000), and with the invalid-input error for every name
without letters after normalization given an accepted date (in particular
the name 123); the `Except` monad returns the error immediately, so no
partial result exists. -/
theorem claim_C5 :
    (∀ nombre fecha, parseFecha (stripLista fecha.data) = none →
      generar_informe_kabalista nombre fecha = .error .invalidDate) ∧
    (∀ nombre fecha info, normalizarLista nombre.data = [] →
      analizar_fecha_numerologia fecha = .ok info →
      generar_informe_kabalista nombre fecha = .error .invalidInput) ∧
    generar_informe_kabalista "María" "31/02/2000" = .error .invalidDate ∧
    generar_informe_kabalista "123" "25/12/1990" = .error .invalidInput := by
  refine ⟨generar_err_invalidDate, generar_err_invalidInput, ?_, ?_⟩
  · exact generar_err_invalidDate "María" "31/02/2000" rfl
  · exact generar_err_invalidInput "123" "25/12/1990" _ rfl analizar_eval_dd

/-- Witness for C5 at the two concrete rejected inputs. -/
theorem claim_C5_witness :
    generar_informe_kabalista "María" "31/02/2000" = .error .invalidDate ∧
    generar_informe_kabalista "123" "25/12/1990" = .error .invalidInput :=
  ⟨claim_C5.1 "María" "31/02/2000" rfl,
   claim_C5.2.1 "123" "25/12/1990"
     { dia := 25, mes := 12, ano := 1990, suma_ano := 19, base_total := 56,
       numero_vida := 11, base_simple := 2, representacion_camino := "11/2" }
     rfl analizar_eval_dd⟩

/-- Counterexample to C6: on the all-digit name 123 the normalizer itself
does not fail; it returns the empty string, and the invalid-input error is
raised only by its caller. -/
theorem claim_C6_counterexample :
    normalizar_nombre "123" = "" ∧
    numero_desde_nombre "123" = .error .invalidInput :=
  ⟨rfl, nombre_eval_123⟩

/-- Claim C6 amended: for a string input, normalizar_nombre always returns; when
zero letters remain after stripping it returns the empty string, and the
invalid-input failure is raised by the caller numero_desde_nombre.  (The
non-textual-input failure of the Python function is outside this typed
embedding: a Lean input is a string by type.) -/
theorem claim_C6 (s : String) (h : normalizarLista s.data = []) :
    normalizar_nombre s = "" ∧
    numero_desde_nombre s = .error .invalidInput := by
  constructor
  · unfold normalizar_nombre
    rw [h]
  · exact numero_desde_nombre_err s h

/-- Witness for the amended C6 at the concrete name 123. -/
theorem claim_C6_witness :
    normalizar_nombre "123" = "" ∧
    numero_desde_nombre "123" = .error .invalidInput :=
  claim_C6 "123" rfl

/-- Counterexample to C3: when neither the life number nor the simple digit
has a template entry (both lookups at 44 miss), the synthesized template
carries the archetype correction text also in its correction-phrases
section, which is therefore not empty as the claim states. -/
theorem claim_C3_counterexample :
    PLANTILLAS_TIKKUN 44 = none ∧
    (plantillaParaInforme 44 44 (arquetipo_desde_numero 44)).rectificacion_frases =
      [(arquetipo_desde_numero 44).perfeccionar] ∧
    (plantillaParaInforme 44 44 (arquetipo_desde_numero 44)).rectificacion_frases ≠ [] :=
  ⟨rfl, rfl, by decide⟩

/-- Claim C3 amended: when both template lookups miss, the synthesized minimal
template holds the life archetype correction text as the single entry of
both the central-theme section and the correction-phrases section, while
patterns, keys and questions are empty. -/
theorem claim_C3 (nv bs : Nat) (a : ArquetipoInfo)
    (h1 : PLANTILLAS_TIKKUN nv = none) (h2 : PLANTILLAS_TIKKUN bs = none) :
    plantillaParaInforme nv bs a =
      { tema_central := [a.perfeccionar], patrones := [],
        rectificacion_frases := [a.perfeccionar], claves := [], preguntas := [] } := by
  unfold plantillaParaInforme
  rw [h1, h2]

/-- Witness for the amended C3 at the concrete number 44. -/
theorem claim_C3_witness :
    plantillaParaInforme 44 44 (arquetipo_desde_numero 44) =
      { tema_central := [(arquetipo_desde_numero 44).perfeccionar], patrones := [],
        rectificacion_frases := [(arquetipo_desde_numero 44).perfeccionar],
        claves := [], preguntas := [] } :=
  claim_C3 44 44 (arquetipo_desde_numero 44) rfl rfl

/-- Claim C9: the patterns, keys and questions sections contribute lines (their
header, their bullets and one closing blank line) exactly when the
corresponding template list is not empty, as the exact line count shows;
the correction-phrases section is always present and carries the extra
synthesized bullet restating the life archetype correction theme. -/
theorem claim_C9 (dia mes ano suma_ano base_total : Nat) (rc : String) (nn : Nat)
    (av an : ArquetipoInfo) (edn : Nat) (edd : String) (emn : Nat) (emd : String)
    (ean : Nat) (ead : String) (p : Plantilla) (L : List String)
    (hL : L = lineasInforme dia mes ano suma_ano base_total rc nn av an
      edn edd emn emd ean ead p) :
    L.length =
      31 + p.tema_central.length + p.rectificacion_frases.length +
      (if p.patrones = [] then 0 else p.patrones.length + 2) +
      (if p.claves = [] then 0 else p.claves.length + 2) +
      (if p.preguntas = [] then 0 else p.preguntas.length + 2) ∧
    ("• En resumen, tu tikkun de fondo es: " ++ av.perfeccionar) ∈ L ∧
    "Lo que vienes a rectificar, en frases directas:" ∈ L ∧
    (p.patrones ≠ [] →
      "Patrones que tienden a repetirse para este arquetipo, donde suele activarse el trabajo del alma:" ∈ L) ∧
    (p.claves ≠ [] → "Claves de sanación y evolución para tu arquetipo:" ∈ L) ∧
    (p.preguntas ≠ [] →
      "Preguntas para trabajar este proceso en escritura, reflexión o meditación:" ∈ L) := by
  subst hL
  refine ⟨?_, ?_, ?_, fun h => ?_, fun h => ?_, fun h => ?_⟩
  · simp only [lineasInforme, List.length_append, List.length_cons, List.length_nil,
      List.length_map, apply_ite List.length]
    split_ifs <;> simp <;> omega
  · simp [lineasInforme]
  · simp [lineasInforme]
  · simp [lineasInforme, h]
  · simp [lineasInforme, h]
  · simp [lineasInforme, h]

/-- Witness for C9 at concrete arguments with every optional list filled. -/
theorem claim_C9_witness :
    ("Patrones que tienden a repetirse para este arquetipo, donde suele activarse el trabajo del alma:" ∈
      lineasInforme 25 12 1990 19 56 "11/2" 6 arquetipoNoDefinido arquetipoNoDefinido
        7 "x" 3 "y" 1 "z" ⟨["a"], ["b"], ["c"], ["d"], ["e"]⟩) ∧
    ("Claves de sanación y evolución para tu arquetipo:" ∈
      lineasInforme 25 12 1990 19 56 "11/2" 6 arquetipoNoDefinido arquetipoNoDefinido
        7 "x" 3 "y" 1 "z" ⟨["a"], ["b"], ["c"], ["d"], ["e"]⟩) ∧
    ("Preguntas para trabajar este proceso en escritura, reflexión o meditación:" ∈
      lineasInforme 25 12 1990 19 56 "11/2" 6 arquetipoNoDefinido arquetipoNoDefinido
        7 "x" 3 "y" 1 "z" ⟨["a"], ["b"], ["c"], ["d"], ["e"]⟩) ∧
    (lineasInforme 25 12 1990 19 56 "11/2" 6 arquetipoNoDefinido arquetipoNoDefinido
        7 "x" 3 "y" 1 "z" ⟨["a"], ["b"], ["c"], ["d"], ["e"]⟩).length =
      31 + 1 + 1 + (if (["b"] : List String) = [] then 0 else 1 + 2) +
      (if (["d"] : List String) = [] then 0 else 1 + 2) +
      (if (["e"] : List String) = [] then 0 else 1 + 2) :=
  ⟨(claim_C9 25 12 1990 19 56 "11/2" 6 arquetipoNoDefinido arquetipoNoDefinido
      7 "x" 3 "y" 1 "z" ⟨["a"], ["b"], ["c"], ["d"], ["e"]⟩ _ rfl).2.2.2.1 (by decide),
   (claim_C9 25 12 1990 19 56 "11/2" 6 arquetipoNoDefinido arquetipoNoDefinido
      7 "x" 3 "y" 1 "z" ⟨["a"], ["b"], ["c"], ["d"], ["e"]⟩ _ rfl).2.2.2.2.1 (by decide),
   (claim_C9 25 12 1990 19 56 "11/2" 6 arquetipoNoDefinido arquetipoNoDefinido
      7 "x" 3 "y" 1 "z" ⟨["a"], ["b"], ["c"], ["d"], ["e"]⟩ _ rfl).2.2.2.2.2 (by decide),
   (claim_C9 25 12 1990 19 56 "11/2" 6 arquetipoNoDefinido arquetipoNoDefinido
      7 "x" 3 "y" 1 "z" ⟨["a"], ["b"], ["c"], ["d"], ["e"]⟩ _ rfl).1⟩

theorem reducir_numero_ok_range (n m : Nat) (h : reducir_numero n = .ok m) :
    (1 ≤ m ∧ m ≤ 9) ∨ m = 11 ∨ m = 22 ∨ m = 33 := by
  unfold reducir_numero at h
  by_cases hn : n = 0
  · rw [if_pos hn] at h
    cases h
  · rw [if_neg hn] at h
    injection h with h
    subst h
    exact reducirNumeroLoop_range n (by omega)

theorem numero_desde_nombre_ok_range (nombre : String) (m : Nat)
    (h : numero_desde_nombre nombre = .ok m) :
    (1 ≤ m ∧ m ≤ 9) ∨ m = 11 ∨ m = 22 ∨ m = 33 := by
  unfold numero_desde_nombre at h
  by_cases hn : (normalizar_nombre nombre).data = []
  · rw [if_pos hn] at h
    cases h
  · rw [if_neg hn] at h
    exact reducir_numero_ok_range _ m h

/-- Whenever the pipeline accepts a name and a date, both resulting numbers
lie in the key domain of the static tables. -/
theorem calcular_ok_ranges (nombre fecha : String) (datos : Resultado)
    (h : calcular_arquetipo nombre fecha = .ok datos) :
    ((1 ≤ datos.numero_vida ∧ datos.numero_vida ≤ 9) ∨ datos.numero_vida = 11 ∨
      datos.numero_vida = 22 ∨ datos.numero_vida = 33) ∧
    ((1 ≤ datos.numero_nombre ∧ datos.numero_nombre ≤ 9) ∨ datos.numero_nombre = 11 ∨
      datos.numero_nombre = 22 ∨ datos.numero_nombre = 33) := by
  unfold calcular_arquetipo at h
  cases ha : analizar_fecha_numerologia fecha with
  | error e => rw [ha] at h; simp [bind, Except.bind] at h
  | ok info =>
    rw [ha] at h
    simp only [bind, Except.bind] at h
    cases hn : numero_desde_nombre nombre with
    | error e => rw [hn] at h; simp [bind, Except.bind] at h
    | ok num =>
      rw [hn] at h
      dsimp only at h
      injection h with h
      subst h
      have hf := analizar_fields fecha info ha
      exact ⟨reducir_numero_ok_range _ _ hf.2.2.1,
        numero_desde_nombre_ok_range nombre num hn⟩

/-- Every number of the reduced domain is a key of both static tables. -/
theorem tablas_totales (n : Nat)
    (h : (1 ≤ n ∧ n ≤ 9) ∨ n = 11 ∨ n = 22 ∨ n = 33) :
    (PLANTILLAS_TIKKUN n).isSome = true ∧ (arquetipos n).isSome = true := by
  rcases h with ⟨h1, h2⟩ | rfl | rfl | rfl
  · interval_cases n <;> exact ⟨rfl, rfl⟩
  · exact ⟨rfl, rfl⟩
  · exact ⟨rfl, rfl⟩
  · exact ⟨rfl, rfl⟩

/-- Claim C10: for every accepted name and date, the life number and the name
number are keys of the archetype table and of the tikkun template table,
so the undefined-archetype sentinel and both template fallbacks are
unreachable from valid external input; moreover every number of the
reduced domain is a key of both tables. -/
theorem claim_C10 (nombre fecha : String) (datos : Resultado)
    (h : calcular_arquetipo nombre fecha = .ok datos) :
    ((PLANTILLAS_TIKKUN datos.numero_vida).isSome = true ∧
     (PLANTILLAS_TIKKUN datos.numero_nombre).isSome = true ∧
     (arquetipos datos.numero_vida).isSome = true ∧
     (arquetipos datos.numero_nombre).isSome = true) ∧
    (∀ n, (1 ≤ n ∧ n ≤ 9) ∨ n = 11 ∨ n = 22 ∨ n = 33 →
      (PLANTILLAS_TIKKUN n).isSome = true ∧ (arquetipos n).isSome = true) := by
  have hr := calcular_ok_ranges nombre fecha datos h
  have h1 := tablas_totales datos.numero_vida hr.1
  have h2 := tablas_totales datos.numero_nombre hr.2
  exact ⟨⟨h1.1, h2.1, h1.2, h2.2⟩, tablas_totales⟩

/-- Witness for C10 at the accepted example input. -/
theorem claim_C10_witness :
    (PLANTILLAS_TIKKUN 11).isSome = true ∧
    (PLANTILLAS_TIKKUN 6).isSome = true ∧
    (arquetipos 11).isSome = true ∧
    (arquetipos 6).isSome = true :=
  (claim_C10 "María" "25/12/1990" _ calcular_eval_maria).1

end Arquetipo
